import Mathlib

/-!
Shallow embedding of the financial core of the `shouldibuyahouse` repository:
`utils.py` together with the call sites in `streamlit-app.py`.

Python floats are idealised as exact rationals (`ℚ`).  Python's `round`
builtin rounds half to even; `pyround` and `pyround2` reproduce that on `ℚ`.
Python operations that raise `ZeroDivisionError` are modelled as `none`:
`pydiv` wraps a single division, and `calculate_amortization_schedule` carries
explicit guards for the two divisions its loop performs (the back-computation
of the total home value, and the per-iteration `equity / total_home_value`,
which raises on the first iteration whenever `total_home_value` is zero and at
least one payment is scheduled).
-/

/-- Python `round(x)`: round to the nearest integer, ties to even. -/
def pyround (x : ℚ) : ℤ :=
  if Int.fract x < 1 / 2 then ⌊x⌋
  else if 1 / 2 < Int.fract x then ⌊x⌋ + 1
  else if ⌊x⌋ % 2 = 0 then ⌊x⌋ else ⌊x⌋ + 1

/-- Python `round(x, 2)`: round to two decimal places, ties to even. -/
def pyround2 (x : ℚ) : ℚ := (pyround (x * 100) : ℚ) / 100

/-- Python true division; `none` models a raised `ZeroDivisionError`. -/
def pydiv (a b : ℚ) : Option ℚ := if b = 0 then none else some (a / b)

/-- One row of the amortization schedule DataFrame built in
`utils.calculate_amortization_schedule`.  `round(...)` of the monetary fields
yields Python ints; `round(..., 2)` of the equity percentage stays a float. -/
structure AmortizationRow where
  year : ℕ
  month : ℕ
  payment_number : ℕ
  principal_payment : ℤ
  interest_payment : ℤ
  remaining_balance : ℤ
  equity_percent : ℚ
deriving DecidableEq

/-- One row of the summary DataFrame built in
`utils.calculate_summary_metrics`, fields in the order of `summary_data`. -/
structure SummaryRow where
  year : ℕ
  annual_cost_of_buying : ℤ
  equity_in_home : ℤ
  home_value : ℤ
  investment_value_buy : ℤ
  annual_cost_of_renting : ℤ
  cost_savings : ℤ
  investment_value_rent : ℤ
  investment_value_rent_reinvest : ℤ
deriving DecidableEq

/-- `utils.calculate_monthly_mortgage_payment`.  The term enters as an
integer; the exponent `number_of_payments` is used as a Python `**` exponent,
modelled by `zpow`.  Both branches end in a division that can raise. -/
def calculate_monthly_mortgage_payment (loan_amount annual_interest_rate : ℚ)
    (loan_term_years : ℤ) : Option ℚ :=
  let monthly_interest_rate := annual_interest_rate / 100 / 12
  let number_of_payments := loan_term_years * 12
  if monthly_interest_rate = 0 then
    pydiv loan_amount (number_of_payments : ℚ)
  else
    pydiv (loan_amount * (monthly_interest_rate * (1 + monthly_interest_rate) ^ number_of_payments))
      ((1 + monthly_interest_rate) ^ number_of_payments - 1)

/-- `utils.calculate_monthly_cost_buying` (the `src/utils.py` version, which
returns only the aggregate total). -/
def calculate_monthly_cost_buying (home_cost monthly_payment : ℚ) : ℚ :=
  let monthly_repair_cost := home_cost * (1 / 100) / 12
  let monthly_property_insurance := home_cost * (9 / 1000) / 12
  let monthly_homeowners_insurance := 200
  monthly_payment + monthly_repair_cost + monthly_property_insurance + monthly_homeowners_insurance

/-- Modelled from the spec: the detailed result shape of the monthly cost
aggregator.  The flagged variant (`calculate_monthly_cost_buying(home_cost,
monthly_payment, extended=True)`, invoked from `streamlit-app.py` line 321) is
defined in the repository's second app copy, which is absent from `src/`; the
spec (section 4.2) lists the components as the mortgage payment, the 1%-of-home-value
maintenance reserve, the 0.9%-of-home-value property-tax proxy, and the flat
$200 homeowners insurance. -/
structure MonthlyCostBreakdown where
  total : ℚ
  mortgage_payment : ℚ
  maintenance : ℚ
  property_tax_proxy : ℚ
  insurance : ℚ
deriving DecidableEq

/-- Modelled from the spec: the monthly cost aggregator with its optional
detail flag (spec section 4.2: "expose as two result shapes or an optional
detail flag").  The plain shape must agree with `src/utils.py`'s
`calculate_monthly_cost_buying`; the detailed shape adds the components. -/
def calculate_monthly_cost_buying_flagged (home_cost monthly_payment : ℚ)
    (detailed : Bool) : Sum ℚ MonthlyCostBreakdown :=
  if detailed then
    Sum.inr
      { total := calculate_monthly_cost_buying home_cost monthly_payment
        mortgage_payment := monthly_payment
        maintenance := home_cost * (1 / 100) / 12
        property_tax_proxy := home_cost * (9 / 1000) / 12
        insurance := 200 }
  else Sum.inl (calculate_monthly_cost_buying home_cost monthly_payment)

/-- The loop of `utils.calculate_amortization_schedule`: state is the pair
`(remaining_balance, equity)`, one row is appended per payment number.  The
division `equity / total_home_value` is left as `ℚ` division here; the caller
guards the `total_home_value = 0` case in which Python would raise. -/
def amortRows (monthly_interest_rate monthly_payment total_home_value : ℚ) :
    ℚ → ℚ → ℕ → ℕ → List AmortizationRow
  | _, _, _, 0 => []
  | balance, equity, payment_number, Nat.succ c =>
    let interest_payment := balance * monthly_interest_rate
    let principal_payment := monthly_payment - interest_payment
    let remaining_balance := balance - principal_payment
    let equity' := equity + principal_payment
    let equity_percent := equity' / total_home_value * 100
    { year := (payment_number - 1) / 12 + 1
      month := (payment_number - 1) % 12 + 1
      payment_number := payment_number
      principal_payment := pyround principal_payment
      interest_payment := pyround interest_payment
      remaining_balance := pyround remaining_balance
      equity_percent := pyround2 equity_percent } ::
      amortRows monthly_interest_rate monthly_payment total_home_value
        remaining_balance equity' (payment_number + 1) c

/-- `utils.calculate_amortization_schedule`.  The first guard is the division
`loan_amount / (1 - down_payment_percent / 100)`; the second marks the
`ZeroDivisionError` Python raises on the first loop iteration (at
`equity / total_home_value`) whenever `total_home_value = 0` and the loop runs
at least once.  A non-positive term makes `range(1, number_of_payments + 1)`
empty, hence `Int.toNat`. -/
def calculate_amortization_schedule (loan_amount annual_interest_rate : ℚ)
    (loan_term_years : ℤ) (down_payment_percent monthly_payment : ℚ) :
    Option (List AmortizationRow) :=
  let monthly_interest_rate := annual_interest_rate / 100 / 12
  let number_of_payments := loan_term_years * 12
  if (1 : ℚ) - down_payment_percent / 100 = 0 then none
  else
    let total_home_value := loan_amount / (1 - down_payment_percent / 100)
    if total_home_value = 0 ∧ 1 ≤ number_of_payments then none
    else
      some (amortRows monthly_interest_rate monthly_payment total_home_value
        loan_amount (total_home_value * (down_payment_percent / 100)) 1
        number_of_payments.toNat)

/-- The per-year buying cost of `utils.calculate_summary_metrics`:
`total_monthly_cost_buying * 12`, plus the closing costs in year 1 only. -/
def annualCostBuying (home_cost closing_costs total_monthly_cost_buying : ℚ)
    (year : ℕ) : ℚ :=
  total_monthly_cost_buying * 12 + (if year = 1 then closing_costs / 100 * home_cost else 0)

/-- The per-year renting cost of `utils.calculate_summary_metrics`. -/
def annualCostRenting (rent rent_increase inflation : ℚ) (year : ℕ) : ℚ :=
  rent * 12 * (1 + (rent_increase + inflation) / 100) ^ year

/-- The per-year "Investment: Rent" value of `utils.calculate_summary_metrics`
(the down payment grown at the investment rate), before rounding. -/
def rentInvestmentValue (down_payment home_cost investment_growth inflation : ℚ)
    (year : ℕ) : ℚ :=
  down_payment / 100 * home_cost * (1 + (investment_growth + inflation) / 100) ^ year

/-- The running balance `total_investment_value_rent_reinvest` of
`utils.calculate_summary_metrics`: seeded at `down_payment / 100 * home_cost`
before year 1 and updated once per year. -/
def reinvestBalance (down_payment home_cost investment_growth inflation
    closing_costs rent rent_increase total_monthly_cost_buying : ℚ) : ℕ → ℚ
  | 0 => down_payment / 100 * home_cost
  | Nat.succ y =>
    reinvestBalance down_payment home_cost investment_growth inflation
        closing_costs rent rent_increase total_monthly_cost_buying y
        * (1 + (investment_growth + inflation) / 100)
      + (annualCostBuying home_cost closing_costs total_monthly_cost_buying (y + 1)
        - annualCostRenting rent rent_increase inflation (y + 1))

/-- The equity lookup of `utils.calculate_summary_metrics`:
`schedule[schedule["Year"] == year]["Equity (%)"].iloc[-1]`.  `iloc[-1]` on an
empty selection raises `IndexError`, modelled by `none`. -/
def equityLookup (schedule : List AmortizationRow) (year : ℕ) : Option ℚ :=
  ((schedule.filter (fun row => row.year == year)).getLast?).map
    (fun row => row.equity_percent)

/-- One iteration of the `utils.calculate_summary_metrics` loop: given the
year, the looked-up equity percentage, and the incoming reinvestment balance,
produce the emitted `SummaryRow` and the updated balance. -/
def summaryStep (down_payment home_cost home_price_appreciation inflation
    investment_growth closing_costs rent rent_increase
    total_monthly_cost_buying : ℚ) (year : ℕ) (equity_percent balance : ℚ) :
    SummaryRow × ℚ :=
  let total_home_value := home_cost * (1 + (home_price_appreciation + inflation) / 100) ^ year
  let total_investment_value_home := equity_percent / 100 * total_home_value
  let total_annual_cost_buying := annualCostBuying home_cost closing_costs total_monthly_cost_buying year
  let total_investment_value_rent := rentInvestmentValue down_payment home_cost investment_growth inflation year
  let total_annual_cost_renting := annualCostRenting rent rent_increase inflation year
  let annual_savings_housing_costs := total_annual_cost_buying - total_annual_cost_renting
  let balance' := balance * (1 + (investment_growth + inflation) / 100) + annual_savings_housing_costs
  ({ year := year
     annual_cost_of_buying := pyround total_annual_cost_buying
     equity_in_home := pyround equity_percent
     home_value := pyround total_home_value
     investment_value_buy := pyround total_investment_value_home
     annual_cost_of_renting := pyround total_annual_cost_renting
     cost_savings := pyround annual_savings_housing_costs
     investment_value_rent := pyround total_investment_value_rent
     investment_value_rent_reinvest := pyround balance' }, balance')

/-- The year loop of `utils.calculate_summary_metrics`, carrying the
reinvestment balance; `none` models the `IndexError` raised when the equity
lookup finds no schedule row for the current year. -/
def summaryRows (down_payment home_cost home_price_appreciation inflation
    investment_growth closing_costs rent rent_increase
    total_monthly_cost_buying : ℚ) (schedule : List AmortizationRow) :
    ℚ → ℕ → ℕ → Option (List SummaryRow)
  | _, _, 0 => some []
  | balance, year, Nat.succ c =>
    (equityLookup schedule year).bind (fun equity_percent =>
      let step := summaryStep down_payment home_cost home_price_appreciation
        inflation investment_growth closing_costs rent rent_increase
        total_monthly_cost_buying year equity_percent balance
      (summaryRows down_payment home_cost home_price_appreciation inflation
        investment_growth closing_costs rent rent_increase
        total_monthly_cost_buying schedule step.2 (year + 1) c).map
        (fun rest => step.1 :: rest))

/-- `utils.calculate_summary_metrics` (the 13-argument `src/utils.py`
version).  Its `interest_rate` and `monthly_payment` parameters are accepted
but never read by the body. -/
def calculate_summary_metrics (down_payment home_cost interest_rate : ℚ)
    (loan_term_years : ℤ) (home_price_appreciation inflation investment_growth
    closing_costs rent rent_increase : ℚ) (amortization_schedule : List AmortizationRow)
    (monthly_payment total_monthly_cost_buying : ℚ) : Option (List SummaryRow) :=
  summaryRows down_payment home_cost home_price_appreciation inflation
    investment_growth closing_costs rent rent_increase total_monthly_cost_buying
    amortization_schedule (down_payment / 100 * home_cost) 1
    loan_term_years.toNat

/-- Modelled from the spec: the alternate entry point of the scenario summary
calculator that recomputes the amortization schedule internally (spec section
4.4: "or equivalently recomputes it internally — both call patterns appear in
the system").  The 10-argument overload called at `streamlit-app.py` line 94
is defined in the repository's second app copy, absent from `src/`; per the
spec's control flow (section 2) it derives `loan_amount = home_cost * (1 -
down_payment/100)`, the monthly payment, the monthly cost of buying, and the
schedule, then proceeds as the 13-argument version. -/
def calculate_summary_metrics_from_inputs (down_payment home_cost interest_rate : ℚ)
    (loan_term_years : ℤ) (home_price_appreciation inflation investment_growth
    closing_costs rent rent_increase : ℚ) : Option (List SummaryRow) :=
  let loan_amount := home_cost * (1 - down_payment / 100)
  match calculate_monthly_mortgage_payment loan_amount interest_rate loan_term_years with
  | none => none
  | some monthly_payment =>
    let total_monthly_cost_buying := calculate_monthly_cost_buying home_cost monthly_payment
    match calculate_amortization_schedule loan_amount interest_rate loan_term_years
        down_payment monthly_payment with
    | none => none
    | some schedule =>
      calculate_summary_metrics down_payment home_cost interest_rate
        loan_term_years home_price_appreciation inflation investment_growth
        closing_costs rent rent_increase schedule monthly_payment
        total_monthly_cost_buying

/-- The list of consecutive years `start, start+1, ..., start+count-1`. -/
def yearSeq (start : ℕ) : ℕ → List ℕ
  | 0 => []
  | Nat.succ c => start :: yearSeq (start + 1) c

/-- Claim C10: the scenario summary calculator's output does not depend on its
`interest_rate` or `monthly_payment` arguments: two calls agreeing on all
other arguments return identical summary tables. -/
theorem C10_summary_ignores_rate_and_payment (down_payment home_cost : ℚ)
    (loan_term_years : ℤ) (home_price_appreciation inflation investment_growth
    closing_costs rent rent_increase : ℚ) (schedule : List AmortizationRow)
    (total_monthly_cost_buying ir1 ir2 mp1 mp2 : ℚ) :
    calculate_summary_metrics down_payment home_cost ir1 loan_term_years
        home_price_appreciation inflation investment_growth closing_costs rent
        rent_increase schedule mp1 total_monthly_cost_buying =
      calculate_summary_metrics down_payment home_cost ir2 loan_term_years
        home_price_appreciation inflation investment_growth closing_costs rent
        rent_increase schedule mp2 total_monthly_cost_buying := rfl

/-- Claim C2: the monthly cost aggregator supports both result shapes via the
detail flag; the plain shape is the aggregate total and the detailed shape
carries the total together with its components (mortgage payment,
maintenance, property-tax proxy, insurance), which sum to the total. -/
theorem C2_monthly_cost_two_shapes (home_cost monthly_payment : ℚ) :
    calculate_monthly_cost_buying_flagged home_cost monthly_payment false =
      Sum.inl (calculate_monthly_cost_buying home_cost monthly_payment) ∧
    ∃ b : MonthlyCostBreakdown,
      calculate_monthly_cost_buying_flagged home_cost monthly_payment true = Sum.inr b ∧
      b.total = calculate_monthly_cost_buying home_cost monthly_payment ∧
      b.total = b.mortgage_payment + b.maintenance + b.property_tax_proxy + b.insurance := by
  refine ⟨rfl, _, rfl, rfl, ?_⟩
  unfold calculate_monthly_cost_buying
  ring

/-- Claim C8: with a zero interest rate the mortgage payment calculator
returns exactly `loan_amount / (term_years * 12)`; zero interest is a handled
case, not an error. -/
theorem C8_zero_rate_straight_line (loan_amount : ℚ) (loan_term_years : ℤ)
    (hL : 0 ≤ loan_amount) (hterm : 1 ≤ loan_term_years) :
    calculate_monthly_mortgage_payment loan_amount 0 loan_term_years =
      some (loan_amount / ((loan_term_years : ℚ) * 12)) := by
  have hne : ((loan_term_years * 12 : ℤ) : ℚ) ≠ 0 := by
    have h0 : (0 : ℤ) < loan_term_years * 12 := by omega
    exact_mod_cast h0.ne'
  simp only [calculate_monthly_mortgage_payment, pydiv]
  norm_num [hne]
  exact fun h => absurd h (by omega)

/-- Witness for C8 at the spec's reference loan: $200000 over 30 years. -/
theorem C8_zero_rate_straight_line_witness :
    calculate_monthly_mortgage_payment 200000 0 30 = some (200000 / ((30 : ℚ) * 12)) :=
  C8_zero_rate_straight_line 200000 30 (by norm_num) (by norm_num)

/-- Counterexample to claim C3: a negative loan amount is not rejected; the
payment calculator silently returns the finite value `-100000/360`. -/
theorem C3_counterexample :
    calculate_monthly_mortgage_payment (-100000) 0 30 = some (-2500 / 9) := by
  simp only [calculate_monthly_mortgage_payment, pydiv]
  norm_num

/-- Claim C3 amended: the core performs no parameter validation.  A zero term
surfaces as a division-by-zero error (`none`) in the payment calculator, but
negative loan amounts, negative terms, and down payments above 100% all flow
through and produce ordinary finite results. -/
theorem C3_amended_no_validation :
    (∀ loan_amount annual_interest_rate : ℚ,
      calculate_monthly_mortgage_payment loan_amount annual_interest_rate 0 = none) ∧
    calculate_monthly_mortgage_payment (-100000) 0 30 = some (-2500 / 9) ∧
    calculate_monthly_mortgage_payment 100000 0 (-30) = some (-2500 / 9) ∧
    (calculate_amortization_schedule (-100000) 0 30 200 0).isSome = true := by
  refine ⟨fun L r => ?_, ?_, ?_, ?_⟩
  · by_cases hr : r / 100 / 12 = 0 <;>
      simp [calculate_monthly_mortgage_payment, pydiv, hr]
  · simp only [calculate_monthly_mortgage_payment, pydiv]; norm_num
  · simp only [calculate_monthly_mortgage_payment, pydiv]; norm_num
  · simp only [calculate_amortization_schedule]
    norm_num

/-- Counterexample to claim C4: at `down_payment_pct = 100` (hence
`loan_amount = 0`, `monthly_payment = 0`) the schedule generator raises a
division-by-zero error instead of returning a `term_years * 12`-row
schedule. -/
theorem C4_counterexample :
    calculate_amortization_schedule 0 5 1 100 0 = none := by
  simp only [calculate_amortization_schedule]
  norm_num

/-- Claim C4 amended: at `down_payment_pct = 100` the back-computation of the
total home value divides by zero, so the schedule generator fails (`none`) for
every loan amount, rate, term and payment instead of producing the all-equity
schedule. -/
theorem C4_amended_dp100_raises (loan_amount annual_interest_rate : ℚ)
    (loan_term_years : ℤ) (monthly_payment : ℚ) :
    calculate_amortization_schedule loan_amount annual_interest_rate
      loan_term_years 100 monthly_payment = none := by
  simp only [calculate_amortization_schedule]
  norm_num

lemma floor_le_pyround (x : ℚ) : ⌊x⌋ ≤ pyround x := by
  unfold pyround; split_ifs <;> omega

lemma pyround_le_floor_add_one (x : ℚ) : pyround x ≤ ⌊x⌋ + 1 := by
  unfold pyround; split_ifs <;> omega

lemma pyround_le_pyround {x y : ℚ} (h : x ≤ y) : pyround x ≤ pyround y := by
  rcases le_or_lt (⌊y⌋ : ℤ) ⌊x⌋ with hf | hf
  · have hfe : ⌊x⌋ = ⌊y⌋ := le_antisymm (Int.floor_le_floor h) hf
    have hfr : Int.fract x ≤ Int.fract y := by
      simp only [Int.fract, hfe]
      linarith
    unfold pyround
    rw [hfe]
    split_ifs <;> first | omega | (exfalso; linarith)
  · calc pyround x ≤ ⌊x⌋ + 1 := pyround_le_floor_add_one x
      _ ≤ ⌊y⌋ := by omega
      _ ≤ pyround y := floor_le_pyround y

lemma abs_pyround_sub_le (x : ℚ) : |(pyround x : ℚ) - x| ≤ 1 / 2 := by
  have h0 : (0 : ℚ) ≤ Int.fract x := Int.fract_nonneg x
  have h1 : Int.fract x < 1 := Int.fract_lt_one x
  have hx : (⌊x⌋ : ℚ) = x - Int.fract x := by
    rw [Int.fract]
    ring
  unfold pyround
  split_ifs <;> rw [abs_le] <;> constructor <;> push_cast <;> linarith

lemma pyround_intCast (n : ℤ) : pyround (n : ℚ) = n := by
  unfold pyround
  rw [Int.fract_intCast, Int.floor_intCast]
  norm_num

lemma pyround2_le_pyround2 {x y : ℚ} (h : x ≤ y) : pyround2 x ≤ pyround2 y := by
  unfold pyround2
  have h1 : pyround (x * 100) ≤ pyround (y * 100) :=
    pyround_le_pyround (mul_le_mul_of_nonneg_right h (by norm_num))
  have h2 : ((pyround (x * 100) : ℚ)) ≤ (pyround (y * 100) : ℚ) := by exact_mod_cast h1
  linarith

lemma pyround2_hundred : pyround2 100 = 100 := by
  unfold pyround2
  rw [show ((100 : ℚ) * 100) = ((10000 : ℤ) : ℚ) by norm_num, pyround_intCast]
  norm_num

lemma pyround_zero : pyround 0 = 0 := by
  rw [show (0 : ℚ) = ((0 : ℤ) : ℚ) by norm_num, pyround_intCast]

/-- The pre-rounding remaining balance after `k` further loop iterations of
`calculate_amortization_schedule`, starting from `balance`. -/
def balAfter (monthly_interest_rate monthly_payment : ℚ) : ℚ → ℕ → ℚ
  | balance, 0 => balance
  | balance, Nat.succ k =>
    balAfter monthly_interest_rate monthly_payment
      (balance - (monthly_payment - balance * monthly_interest_rate)) k

lemma payment_margin_step (r mp balance : ℚ) (hr : 0 ≤ r)
    (h : 0 ≤ mp - balance * r) :
    0 ≤ mp - (balance - (mp - balance * r)) * r := by
  have key : mp - (balance - (mp - balance * r)) * r = (1 + r) * (mp - balance * r) := by
    ring
  rw [key]
  exact mul_nonneg (by linarith) h

lemma balAfter_closed (r mp : ℚ) (hr : r ≠ 0) :
    ∀ (k : ℕ) (balance : ℚ),
      balAfter r mp balance k = (balance - mp / r) * (1 + r) ^ k + mp / r := by
  intro k
  induction k with
  | zero => intro balance; simp [balAfter]
  | succ k ih =>
    intro balance
    have key : balance - (mp - balance * r) - mp / r = (1 + r) * (balance - mp / r) := by
      field_simp
      ring
    simp only [balAfter]
    rw [ih, key, pow_succ]
    ring

lemma balAfter_zero_rate (mp : ℚ) :
    ∀ (k : ℕ) (balance : ℚ), balAfter 0 mp balance k = balance - k * mp := by
  intro k
  induction k with
  | zero => intro balance; simp [balAfter]
  | succ k ih =>
    intro balance
    simp only [balAfter, ih]
    push_cast
    ring

lemma annuity_balance_zero (L r : ℚ) (N : ℕ) (hr : r ≠ 0)
    (hD : (1 + r) ^ N - 1 ≠ 0) :
    balAfter r (L * (r * (1 + r) ^ N) / ((1 + r) ^ N - 1)) L N = 0 := by
  rw [balAfter_closed _ _ hr]
  field_simp
  ring

lemma annuity_payment_margin (L r : ℚ) (N : ℕ) (hL : 0 ≤ L) (hr : 0 < r)
    (hD : 0 < (1 + r) ^ N - 1) :
    0 ≤ L * (r * (1 + r) ^ N) / ((1 + r) ^ N - 1) - L * r := by
  have key : L * (r * (1 + r) ^ N) / ((1 + r) ^ N - 1) - L * r =
      L * r / ((1 + r) ^ N - 1) := by
    field_simp
    ring
  rw [key]
  exact div_nonneg (mul_nonneg hL hr.le) hD.le

lemma mortgage_payment_props (loan_amount annual_interest_rate : ℚ)
    (loan_term_years : ℤ) (mp : ℚ) (hr : 0 ≤ annual_interest_rate)
    (ht : 1 ≤ loan_term_years)
    (hmp : calculate_monthly_mortgage_payment loan_amount annual_interest_rate
      loan_term_years = some mp) :
    balAfter (annual_interest_rate / 100 / 12) mp loan_amount
        (loan_term_years * 12).toNat = 0 ∧
    (0 ≤ loan_amount →
      0 ≤ mp - loan_amount * (annual_interest_rate / 100 / 12)) := by
  have hr0 : 0 ≤ annual_interest_rate / 100 / 12 := by positivity
  have hNcast : (((loan_term_years * 12).toNat : ℤ)) = loan_term_years * 12 :=
    Int.toNat_of_nonneg (by omega)
  have hNpos : 0 < (loan_term_years * 12).toNat := by omega
  by_cases hrz : annual_interest_rate / 100 / 12 = 0
  · have hdv : ((loan_term_years * 12 : ℤ) : ℚ) ≠ 0 := by
      exact_mod_cast (by omega : (loan_term_years * 12 : ℤ) ≠ 0)
    simp only [calculate_monthly_mortgage_payment, pydiv, if_pos hrz, if_neg hdv] at hmp
    have hmp' : loan_amount / ((loan_term_years * 12 : ℤ) : ℚ) = mp :=
      Option.some.inj hmp
    have hNQ : (((loan_term_years * 12).toNat : ℚ)) = ((loan_term_years * 12 : ℤ) : ℚ) := by
      exact_mod_cast hNcast
    constructor
    · rw [hrz, balAfter_zero_rate, ← hmp', hNQ]
      field_simp
    · intro hL
      rw [hrz, ← hmp']
      have : 0 ≤ loan_amount / ((loan_term_years * 12 : ℤ) : ℚ) := by
        apply div_nonneg hL
        have : (0 : ℤ) ≤ loan_term_years * 12 := by omega
        exact_mod_cast this
      linarith
  · have hrpos : 0 < annual_interest_rate / 100 / 12 :=
      lt_of_le_of_ne hr0 (Ne.symm hrz)
    simp only [calculate_monthly_mortgage_payment, pydiv, if_neg hrz] at hmp
    rw [show (loan_term_years * 12 : ℤ) = (((loan_term_years * 12).toNat : ℕ) : ℤ)
      from hNcast.symm, zpow_natCast] at hmp
    have hD : 0 < (1 + annual_interest_rate / 100 / 12) ^ (loan_term_years * 12).toNat - 1 := by
      have h1 : 1 < (1 + annual_interest_rate / 100 / 12) ^ (loan_term_years * 12).toNat :=
        one_lt_pow₀ (by linarith) hNpos.ne'
      linarith
    rw [if_neg hD.ne'] at hmp
    have hmp' : loan_amount * ((annual_interest_rate / 100 / 12) *
        (1 + annual_interest_rate / 100 / 12) ^ (loan_term_years * 12).toNat) /
        ((1 + annual_interest_rate / 100 / 12) ^ (loan_term_years * 12).toNat - 1) = mp :=
      Option.some.inj hmp
    constructor
    · rw [← hmp']
      exact annuity_balance_zero _ _ _ hrz hD.ne'
    · intro hL
      rw [← hmp']
      exact annuity_payment_margin _ _ _ hL hrpos hD

lemma amortRows_zero (r mp thv balance equity : ℚ) (pn : ℕ) :
    amortRows r mp thv balance equity pn 0 = [] := rfl

lemma amortRows_succ (r mp thv balance equity : ℚ) (pn c : ℕ) :
    amortRows r mp thv balance equity pn (c + 1) =
      { year := (pn - 1) / 12 + 1
        month := (pn - 1) % 12 + 1
        payment_number := pn
        principal_payment := pyround (mp - balance * r)
        interest_payment := pyround (balance * r)
        remaining_balance := pyround (balance - (mp - balance * r))
        equity_percent := pyround2 ((equity + (mp - balance * r)) / thv * 100) } ::
      amortRows r mp thv (balance - (mp - balance * r))
        (equity + (mp - balance * r)) (pn + 1) c := rfl

lemma balAfter_succ (r mp balance : ℚ) (k : ℕ) :
    balAfter r mp balance (k + 1) =
      balAfter r mp (balance - (mp - balance * r)) k := rfl

lemma amortRows_mem_payment (r mp thv : ℚ) :
    ∀ (c : ℕ) (balance equity : ℚ) (pn : ℕ) (row : AmortizationRow),
      row ∈ amortRows r mp thv balance equity pn c →
      ∃ b : ℚ, row.interest_payment = pyround (b * r) ∧
        row.principal_payment = pyround (mp - b * r) := by
  intro c
  induction c with
  | zero =>
    intro balance equity pn row hrow
    rw [amortRows_zero] at hrow
    exact absurd hrow (List.not_mem_nil row)
  | succ c ih =>
    intro balance equity pn row hrow
    rw [amortRows_succ] at hrow
    rcases List.mem_cons.mp hrow with h | h
    · subst h
      exact ⟨balance, rfl, rfl⟩
    · exact ih _ _ _ _ h

lemma amortRows_chain (r mp thv : ℚ) (hr : 0 ≤ r) (hthv : 0 < thv) :
    ∀ (c : ℕ) (balance equity : ℚ) (pn : ℕ), 0 ≤ mp - balance * r →
      List.Chain' (fun a b => b.remaining_balance ≤ a.remaining_balance ∧
        a.equity_percent ≤ b.equity_percent)
        (amortRows r mp thv balance equity pn c) := by
  intro c
  induction c with
  | zero =>
    intro balance equity pn _
    rw [amortRows_zero]
    exact List.chain'_nil
  | succ c ih =>
    intro balance equity pn hinv
    have hinv' := payment_margin_step r mp balance hr hinv
    cases c with
    | zero =>
      rw [amortRows_succ, amortRows_zero]
      exact List.chain'_singleton _
    | succ c' =>
      have htail := ih (balance - (mp - balance * r)) (equity + (mp - balance * r))
        (pn + 1) hinv'
      rw [amortRows_succ, amortRows_succ]
      rw [amortRows_succ] at htail
      refine List.chain'_cons.mpr ⟨⟨?_, ?_⟩, htail⟩
      · exact pyround_le_pyround (by linarith)
      · apply pyround2_le_pyround2
        have hgrow : equity + (mp - balance * r) ≤
            equity + (mp - balance * r) +
              (mp - (balance - (mp - balance * r)) * r) := by linarith
        have hdiv : (equity + (mp - balance * r)) / thv ≤
            (equity + (mp - balance * r) +
              (mp - (balance - (mp - balance * r)) * r)) / thv :=
          (div_le_div_right hthv).mpr hgrow
        linarith

lemma amortRows_getLast (r mp thv : ℚ) :
    ∀ (c : ℕ) (balance equity : ℚ) (pn : ℕ),
      (amortRows r mp thv balance equity pn (c + 1)).getLast? = some
        { year := (pn + c - 1) / 12 + 1
          month := (pn + c - 1) % 12 + 1
          payment_number := pn + c
          principal_payment := pyround (mp - balAfter r mp balance c * r)
          interest_payment := pyround (balAfter r mp balance c * r)
          remaining_balance := pyround (balAfter r mp balance (c + 1))
          equity_percent := pyround2
            ((equity + (balance - balAfter r mp balance (c + 1))) / thv * 100) } := by
  intro c
  induction c with
  | zero =>
    intro balance equity pn
    rw [amortRows_succ, amortRows_zero]
    have h1 : balAfter r mp balance 0 = balance := rfl
    have h2 : balAfter r mp balance 1 = balance - (mp - balance * r) := rfl
    rw [h1, h2]
    simp only [List.getLast?_singleton, Nat.add_zero, Option.some.injEq,
      AmortizationRow.mk.injEq, true_and, and_true]
    congr 1
    ring
  | succ c ih =>
    intro balance equity pn
    rw [amortRows_succ, amortRows_succ, List.getLast?_cons_cons, ← amortRows_succ]
    rw [ih (balance - (mp - balance * r)) (equity + (mp - balance * r)) (pn + 1)]
    have h3 : balAfter r mp balance (c + 1 + 1) =
        balAfter r mp (balance - (mp - balance * r)) (c + 1) := rfl
    have h4 : balAfter r mp balance (c + 1) =
        balAfter r mp (balance - (mp - balance * r)) c := rfl
    rw [h3, h4]
    simp only [Option.some.injEq, AmortizationRow.mk.injEq, true_and, and_true]
    refine ⟨by omega, by omega, by omega, ?_⟩
    congr 1
    ring

lemma amortRows_sum_principal (r mp thv : ℚ) :
    ∀ (c : ℕ) (balance equity : ℚ) (pn : ℕ),
      |((((amortRows r mp thv balance equity pn c).map
          (fun row => row.principal_payment)).sum : ℤ) : ℚ)
        - (balance - balAfter r mp balance c)| ≤ (c : ℚ) * (1 / 2) := by
  intro c
  induction c with
  | zero =>
    intro balance equity pn
    rw [amortRows_zero]
    simp [balAfter]
  | succ c ih =>
    intro balance equity pn
    rw [amortRows_succ, balAfter_succ]
    simp only [List.map_cons, List.sum_cons]
    have h1 := abs_pyround_sub_le (mp - balance * r)
    have h2 := ih (balance - (mp - balance * r)) (equity + (mp - balance * r)) (pn + 1)
    calc |(((pyround (mp - balance * r) +
            ((amortRows r mp thv (balance - (mp - balance * r))
              (equity + (mp - balance * r)) (pn + 1) c).map
              (fun row => row.principal_payment)).sum : ℤ) : ℚ))
          - (balance - balAfter r mp (balance - (mp - balance * r)) c)|
        = |((pyround (mp - balance * r) : ℚ) - (mp - balance * r)) +
            (((((amortRows r mp thv (balance - (mp - balance * r))
              (equity + (mp - balance * r)) (pn + 1) c).map
              (fun row => row.principal_payment)).sum : ℤ) : ℚ)
            - ((balance - (mp - balance * r)) -
                balAfter r mp (balance - (mp - balance * r)) c))| := by
          congr 1
          push_cast
          ring
      _ ≤ |(pyround (mp - balance * r) : ℚ) - (mp - balance * r)| +
            |((((amortRows r mp thv (balance - (mp - balance * r))
              (equity + (mp - balance * r)) (pn + 1) c).map
              (fun row => row.principal_payment)).sum : ℤ) : ℚ)
            - ((balance - (mp - balance * r)) -
                balAfter r mp (balance - (mp - balance * r)) c)| := abs_add _ _
      _ ≤ 1 / 2 + (c : ℚ) * (1 / 2) := add_le_add h1 h2
      _ = ((c + 1 : ℕ) : ℚ) * (1 / 2) := by push_cast; ring

lemma pyround_pair_close (p i : ℚ) :
    |((pyround p : ℚ) + (pyround i : ℚ)) - (p + i)| ≤ 1 := by
  have h1 := abs_pyround_sub_le p
  have h2 := abs_pyround_sub_le i
  calc |((pyround p : ℚ) + (pyround i : ℚ)) - (p + i)|
      = |((pyround p : ℚ) - p) + ((pyround i : ℚ) - i)| := by congr 1; ring
    _ ≤ |(pyround p : ℚ) - p| + |(pyround i : ℚ) - i| := abs_add _ _
    _ ≤ 1 / 2 + 1 / 2 := add_le_add h1 h2
    _ = 1 := by norm_num

/-- Counterexample to claim C5: `loan_amount = 0` satisfies the claim's
hypotheses (`loan_amount ≥ 0`, rate `≥ 0`, term `≥ 1`, down payment in
`[0, 100)`), the payment calculator returns `some 0`, yet the schedule
generator raises (`equity / total_home_value` divides by zero), so no
schedule with the claimed row invariants is produced. -/
theorem C5_counterexample :
    calculate_monthly_mortgage_payment 0 0 1 = some 0 ∧
    calculate_amortization_schedule 0 0 1 20 0 = none := by
  constructor
  · simp only [calculate_monthly_mortgage_payment, pydiv]
    norm_num
  · simp only [calculate_amortization_schedule]
    norm_num

/-- Claim C5 amended: for every loan with `loan_amount > 0` (rather than
`≥ 0`), rate `≥ 0`, term `≥ 1`, down payment in `[0, 100)`, and the monthly
payment from the payment calculator, the schedule is produced and every row
satisfies: rounded principal plus rounded interest is within 1 currency unit
of the fixed payment, the remaining balance is non-increasing and exactly 0
at the last row, and the equity percentage is non-decreasing and exactly 100
at the last row. -/
theorem C5_amended_schedule_invariants (loan_amount annual_interest_rate : ℚ)
    (loan_term_years : ℤ) (down_payment_percent mp : ℚ)
    (hL : 0 < loan_amount) (hr : 0 ≤ annual_interest_rate)
    (ht : 1 ≤ loan_term_years) (hdp0 : 0 ≤ down_payment_percent)
    (hdp1 : down_payment_percent < 100)
    (hmp : calculate_monthly_mortgage_payment loan_amount annual_interest_rate
      loan_term_years = some mp) :
    ∃ rows, calculate_amortization_schedule loan_amount annual_interest_rate
        loan_term_years down_payment_percent mp = some rows ∧
      (∀ row ∈ rows,
        |((row.principal_payment : ℚ) + (row.interest_payment : ℚ) - mp)| ≤ 1) ∧
      List.Chain' (fun a b => b.remaining_balance ≤ a.remaining_balance) rows ∧
      List.Chain' (fun a b => a.equity_percent ≤ b.equity_percent) rows ∧
      rows.getLast?.map (fun row => row.remaining_balance) = some 0 ∧
      rows.getLast?.map (fun row => row.equity_percent) = some 100 := by
  have hden : 0 < 1 - down_payment_percent / 100 := by linarith
  have hthv : 0 < loan_amount / (1 - down_payment_percent / 100) :=
    div_pos hL hden
  have hr0 : 0 ≤ annual_interest_rate / 100 / 12 := by positivity
  obtain ⟨hbal, hmargin⟩ :=
    mortgage_payment_props _ _ _ _ hr ht hmp
  have hmargin' := hmargin hL.le
  have hNpos : 0 < (loan_term_years * 12).toNat := by omega
  obtain ⟨c, hc⟩ : ∃ c, (loan_term_years * 12).toNat = c + 1 :=
    ⟨_, (Nat.succ_pred_eq_of_pos hNpos).symm⟩
  simp only [calculate_amortization_schedule]
  rw [if_neg hden.ne', if_neg (fun h => hthv.ne' h.1)]
  refine ⟨_, rfl, ?_, ?_, ?_, ?_, ?_⟩
  · intro row hrow
    obtain ⟨b, hi, hp⟩ := amortRows_mem_payment _ _ _ _ _ _ _ _ hrow
    rw [hi, hp]
    have hclose := pyround_pair_close (mp - b * (annual_interest_rate / 100 / 12))
      (b * (annual_interest_rate / 100 / 12))
    rw [show mp - b * (annual_interest_rate / 100 / 12) +
        b * (annual_interest_rate / 100 / 12) = mp from by ring] at hclose
    exact hclose
  · exact List.Chain'.imp (fun a b h => h.1)
      (amortRows_chain _ _ _ hr0 hthv _ _ _ _ hmargin')
  · exact List.Chain'.imp (fun a b h => h.2)
      (amortRows_chain _ _ _ hr0 hthv _ _ _ _ hmargin')
  · rw [hc] at hbal ⊢
    rw [amortRows_getLast]
    simp only [Option.map_some', Option.some.injEq]
    rw [hbal]
    exact pyround_zero
  · rw [hc] at hbal ⊢
    rw [amortRows_getLast]
    simp only [Option.map_some', Option.some.injEq]
    rw [hbal]
    have h100 : (100 : ℚ) - down_payment_percent ≠ 0 := by
      intro h; linarith
    have h10000 : (10000 : ℚ) - down_payment_percent * 100 ≠ 0 := by
      intro h; linarith
    have heq : loan_amount / (1 - down_payment_percent / 100) *
        (down_payment_percent / 100) + (loan_amount - 0) =
        loan_amount / (1 - down_payment_percent / 100) := by
      field_simp [h100, h10000]
      ring
    rw [heq, div_self hthv.ne', one_mul, pyround2_hundred]

/-- Witness for the amended C5 at loan 1200, zero rate, 1 year, 20% down. -/
theorem C5_amended_schedule_invariants_witness :
    ∃ rows, calculate_amortization_schedule 1200 0 1 20 100 = some rows ∧
      (∀ row ∈ rows,
        |((row.principal_payment : ℚ) + (row.interest_payment : ℚ) - 100)| ≤ 1) ∧
      List.Chain' (fun a b => b.remaining_balance ≤ a.remaining_balance) rows ∧
      List.Chain' (fun a b => a.equity_percent ≤ b.equity_percent) rows ∧
      rows.getLast?.map (fun row => row.remaining_balance) = some 0 ∧
      rows.getLast?.map (fun row => row.equity_percent) = some 100 :=
  C5_amended_schedule_invariants 1200 0 1 20 100 (by norm_num) (by norm_num)
    (by norm_num) (by norm_num) (by norm_num)
    (by simp only [calculate_monthly_mortgage_payment, pydiv]; norm_num)

/-- Counterexample to claim C7: `loan_amount = 0` satisfies the claim's
hypotheses (loan `≥ 0`, rate `≥ 0`, term `≥ 1`), the payment calculator
returns `some 0`, yet the schedule generator raises, so there is no schedule
whose principal payments can be summed. -/
theorem C7_counterexample :
    calculate_monthly_mortgage_payment 0 0 1 = some 0 ∧
    calculate_amortization_schedule 0 0 1 0 0 = none := by
  constructor
  · simp only [calculate_monthly_mortgage_payment, pydiv]
    norm_num
  · simp only [calculate_amortization_schedule]
    norm_num

/-- Claim C7 amended: for every loan with `loan_amount > 0` (rather than
`≥ 0`), rate `≥ 0`, term `≥ 1`, a down payment other than 100%, and the
monthly payment from the payment calculator, the schedule is produced and the
sum of its rounded principal payments differs from the loan amount by at most
`number_of_payments * 0.5`. -/
theorem C7_amended_principal_sum (loan_amount annual_interest_rate : ℚ)
    (loan_term_years : ℤ) (down_payment_percent mp : ℚ)
    (hL : 0 < loan_amount) (hr : 0 ≤ annual_interest_rate)
    (ht : 1 ≤ loan_term_years) (hdp : down_payment_percent ≠ 100)
    (hmp : calculate_monthly_mortgage_payment loan_amount annual_interest_rate
      loan_term_years = some mp) :
    ∃ rows, calculate_amortization_schedule loan_amount annual_interest_rate
        loan_term_years down_payment_percent mp = some rows ∧
      |((((rows.map (fun row => row.principal_payment)).sum : ℤ) : ℚ)) - loan_amount| ≤
        ((loan_term_years * 12 : ℤ) : ℚ) * (1 / 2) := by
  have hden : (1 : ℚ) - down_payment_percent / 100 ≠ 0 := by
    intro h
    exact hdp (by linarith)
  have hthv : loan_amount / (1 - down_payment_percent / 100) ≠ 0 :=
    div_ne_zero hL.ne' hden
  obtain ⟨hbal, _⟩ := mortgage_payment_props _ _ _ _ hr ht hmp
  simp only [calculate_amortization_schedule]
  rw [if_neg hden, if_neg (fun h => hthv h.1)]
  refine ⟨_, rfl, ?_⟩
  have hsum := amortRows_sum_principal (annual_interest_rate / 100 / 12) mp
    (loan_amount / (1 - down_payment_percent / 100))
    ((loan_term_years * 12).toNat) loan_amount
    (loan_amount / (1 - down_payment_percent / 100) * (down_payment_percent / 100)) 1
  rw [hbal] at hsum
  have hNQ : (((loan_term_years * 12).toNat : ℚ)) = ((loan_term_years * 12 : ℤ) : ℚ) := by
    have h := Int.toNat_of_nonneg (show (0 : ℤ) ≤ loan_term_years * 12 by omega)
    exact_mod_cast h
  rw [hNQ] at hsum
  simpa using hsum

/-- Witness for the amended C7 at loan 1200, zero rate, 1 year, 7% down. -/
theorem C7_amended_principal_sum_witness :
    ∃ rows, calculate_amortization_schedule 1200 0 1 7 100 = some rows ∧
      |((((rows.map (fun row => row.principal_payment)).sum : ℤ) : ℚ)) - 1200| ≤
        (((1 : ℤ) * 12 : ℤ) : ℚ) * (1 / 2) :=
  C7_amended_principal_sum 1200 0 1 7 100 (by norm_num) (by norm_num)
    (by norm_num) (by norm_num)
    (by simp only [calculate_monthly_mortgage_payment, pydiv]; norm_num)

lemma yearSeq_succ (start c : ℕ) :
    yearSeq start (c + 1) = start :: yearSeq (start + 1) c := rfl

lemma mem_yearSeq : ∀ (c start y : ℕ), y ∈ yearSeq start c ↔ start ≤ y ∧ y < start + c := by
  intro c
  induction c with
  | zero =>
    intro start y
    simp only [yearSeq, List.not_mem_nil, false_iff]
    omega
  | succ c ih =>
    intro start y
    rw [yearSeq_succ, List.mem_cons, ih]
    omega

section SummaryLemmas

variable (down_payment home_cost home_price_appreciation inflation investment_growth
  closing_costs rent rent_increase total_monthly_cost_buying : ℚ)
variable (schedule : List AmortizationRow)

lemma summaryRows_succ_eq (balance : ℚ) (year c : ℕ) :
    summaryRows down_payment home_cost home_price_appreciation inflation
      investment_growth closing_costs rent rent_increase total_monthly_cost_buying
      schedule balance year (c + 1) =
    (equityLookup schedule year).bind (fun equity_percent =>
      (summaryRows down_payment home_cost home_price_appreciation inflation
        investment_growth closing_costs rent rent_increase total_monthly_cost_buying
        schedule
        (summaryStep down_payment home_cost home_price_appreciation inflation
          investment_growth closing_costs rent rent_increase
          total_monthly_cost_buying year equity_percent balance).2 (year + 1) c).map
        (fun rest =>
          (summaryStep down_payment home_cost home_price_appreciation inflation
            investment_growth closing_costs rent rent_increase
            total_monthly_cost_buying year equity_percent balance).1 :: rest)) := rfl

lemma summaryRows_succ_some {balance : ℚ} {year c : ℕ} {rows : List SummaryRow}
    (h : summaryRows down_payment home_cost home_price_appreciation inflation
      investment_growth closing_costs rent rent_increase total_monthly_cost_buying
      schedule balance year (c + 1) = some rows) :
    ∃ equity_percent rest, equityLookup schedule year = some equity_percent ∧
      summaryRows down_payment home_cost home_price_appreciation inflation
        investment_growth closing_costs rent rent_increase total_monthly_cost_buying
        schedule
        (summaryStep down_payment home_cost home_price_appreciation inflation
          investment_growth closing_costs rent rent_increase
          total_monthly_cost_buying year equity_percent balance).2 (year + 1) c =
        some rest ∧
      rows = (summaryStep down_payment home_cost home_price_appreciation inflation
        investment_growth closing_costs rent rent_increase
        total_monthly_cost_buying year equity_percent balance).1 :: rest := by
  rw [summaryRows_succ_eq] at h
  cases hlook : equityLookup schedule year with
  | none =>
    rw [hlook] at h
    exact Option.noConfusion h
  | some equity_percent =>
    rw [hlook, Option.some_bind] at h
    cases hrest : summaryRows down_payment home_cost home_price_appreciation inflation
        investment_growth closing_costs rent rent_increase total_monthly_cost_buying
        schedule
        (summaryStep down_payment home_cost home_price_appreciation inflation
          investment_growth closing_costs rent rent_increase
          total_monthly_cost_buying year equity_percent balance).2 (year + 1) c with
    | none =>
      rw [hrest] at h
      exact Option.noConfusion h
    | some rest =>
      rw [hrest, Option.map_some'] at h
      exact ⟨equity_percent, rest, rfl, hrest, (Option.some.inj h).symm⟩

lemma summaryRows_total_years :
    ∀ (c : ℕ) (balance : ℚ) (year : ℕ),
      (∀ y ∈ yearSeq year c, (equityLookup schedule y).isSome = true) →
      ∃ rows, summaryRows down_payment home_cost home_price_appreciation inflation
          investment_growth closing_costs rent rent_increase
          total_monthly_cost_buying schedule balance year c = some rows ∧
        rows.map (fun row => row.year) = yearSeq year c := by
  intro c
  induction c with
  | zero =>
    intro balance year _
    exact ⟨[], rfl, rfl⟩
  | succ c ih =>
    intro balance year hlook
    have hy : (equityLookup schedule year).isSome = true := by
      apply hlook
      rw [yearSeq_succ]
      exact List.mem_cons_self _ _
    obtain ⟨equity_percent, heq⟩ := Option.isSome_iff_exists.mp hy
    obtain ⟨rest, hrest, hmap⟩ := ih
      (summaryStep down_payment home_cost home_price_appreciation inflation
        investment_growth closing_costs rent rent_increase
        total_monthly_cost_buying year equity_percent balance).2 (year + 1)
      (fun y hyx => hlook y (by rw [yearSeq_succ]; exact List.mem_cons_of_mem _ hyx))
    refine ⟨(summaryStep down_payment home_cost home_price_appreciation inflation
      investment_growth closing_costs rent rent_increase
      total_monthly_cost_buying year equity_percent balance).1 :: rest, ?_, ?_⟩
    · rw [summaryRows_succ_eq, heq, Option.some_bind, hrest, Option.map_some']
    · rw [List.map_cons, hmap, yearSeq_succ]
      rfl

end SummaryLemmas

section SummaryFieldLemmas

variable (down_payment home_cost home_price_appreciation inflation investment_growth
  closing_costs rent rent_increase total_monthly_cost_buying : ℚ)
variable (schedule : List AmortizationRow)

lemma summaryStep_snd (year : ℕ) (equity_percent balance : ℚ) :
    (summaryStep down_payment home_cost home_price_appreciation inflation
      investment_growth closing_costs rent rent_increase total_monthly_cost_buying
      year equity_percent balance).2 =
    balance * (1 + (investment_growth + inflation) / 100) +
      (annualCostBuying home_cost closing_costs total_monthly_cost_buying year -
        annualCostRenting rent rent_increase inflation year) := rfl

lemma reinvestBalance_succ (y : ℕ) :
    reinvestBalance down_payment home_cost investment_growth inflation closing_costs
      rent rent_increase total_monthly_cost_buying (y + 1) =
    reinvestBalance down_payment home_cost investment_growth inflation closing_costs
        rent rent_increase total_monthly_cost_buying y *
        (1 + (investment_growth + inflation) / 100) +
      (annualCostBuying home_cost closing_costs total_monthly_cost_buying (y + 1) -
        annualCostRenting rent rent_increase inflation (y + 1)) := rfl

lemma summaryRows_tivr_field :
    ∀ (c : ℕ) (balance : ℚ) (year : ℕ) (rows : List SummaryRow),
      summaryRows down_payment home_cost home_price_appreciation inflation
        investment_growth closing_costs rent rent_increase total_monthly_cost_buying
        schedule balance year c = some rows →
      ∀ row ∈ rows, row.investment_value_rent =
        pyround (rentInvestmentValue down_payment home_cost investment_growth
          inflation row.year) := by
  intro c
  induction c with
  | zero =>
    intro balance year rows h row hrow
    have hnil : ([] : List SummaryRow) = rows := Option.some.inj h
    rw [← hnil] at hrow
    exact absurd hrow (List.not_mem_nil row)
  | succ c ih =>
    intro balance year rows h row hrow
    obtain ⟨equity_percent, rest, hlook, hrest, hrows⟩ :=
      summaryRows_succ_some down_payment home_cost home_price_appreciation inflation
        investment_growth closing_costs rent rent_increase total_monthly_cost_buying
        schedule h
    subst hrows
    rcases List.mem_cons.mp hrow with hhead | htail
    · subst hhead
      rfl
    · exact ih _ _ _ hrest row htail

lemma summaryRows_reinvest_field :
    ∀ (c year : ℕ) (balance : ℚ) (rows : List SummaryRow),
      1 ≤ year →
      balance = reinvestBalance down_payment home_cost investment_growth inflation
        closing_costs rent rent_increase total_monthly_cost_buying (year - 1) →
      summaryRows down_payment home_cost home_price_appreciation inflation
        investment_growth closing_costs rent rent_increase total_monthly_cost_buying
        schedule balance year c = some rows →
      ∀ row ∈ rows, row.investment_value_rent_reinvest =
        pyround (reinvestBalance down_payment home_cost investment_growth inflation
            closing_costs rent rent_increase total_monthly_cost_buying (row.year - 1) *
            (1 + (investment_growth + inflation) / 100) +
          (annualCostBuying home_cost closing_costs total_monthly_cost_buying row.year -
            annualCostRenting rent rent_increase inflation row.year)) := by
  intro c
  induction c with
  | zero =>
    intro year balance rows _ _ h row hrow
    have hnil : ([] : List SummaryRow) = rows := Option.some.inj h
    rw [← hnil] at hrow
    exact absurd hrow (List.not_mem_nil row)
  | succ c ih =>
    intro year balance rows hy1 hbal h row hrow
    obtain ⟨equity_percent, rest, hlook, hrest, hrows⟩ :=
      summaryRows_succ_some down_payment home_cost home_price_appreciation inflation
        investment_growth closing_costs rent rent_increase total_monthly_cost_buying
        schedule h
    subst hrows
    have hy : year - 1 + 1 = year := Nat.succ_pred_eq_of_pos hy1
    rcases List.mem_cons.mp hrow with hhead | htail
    · subst hhead
      show pyround (balance * (1 + (investment_growth + inflation) / 100) +
          (annualCostBuying home_cost closing_costs total_monthly_cost_buying year -
            annualCostRenting rent rent_increase inflation year)) =
        pyround (reinvestBalance down_payment home_cost investment_growth inflation
            closing_costs rent rent_increase total_monthly_cost_buying (year - 1) *
            (1 + (investment_growth + inflation) / 100) +
          (annualCostBuying home_cost closing_costs total_monthly_cost_buying year -
            annualCostRenting rent rent_increase inflation year))
      rw [hbal]
    · have hstep : (summaryStep down_payment home_cost home_price_appreciation
          inflation investment_growth closing_costs rent rent_increase
          total_monthly_cost_buying year equity_percent balance).2 =
          reinvestBalance down_payment home_cost investment_growth inflation
            closing_costs rent rent_increase total_monthly_cost_buying year := by
        conv_rhs => rw [← hy]
        rw [reinvestBalance_succ, summaryStep_snd, hbal, hy]
      refine ih (year + 1) _ rest (by omega) ?_ hrest row htail
      rw [Nat.add_sub_cancel]
      exact hstep

end SummaryFieldLemmas

/-- Claim C6: the rent-and-reinvest series is a stateful fold.  The running
balance is seeded at `down_payment/100 * home_cost` before year 1, and every
emitted `investment_value_rent_reinvest` equals (after the emission rounding)
the prior year's balance grown by `(1 + (investment_growth + inflation)/100)`
plus that year's cost differential
`annual_cost_of_buying - annual_cost_of_renting`, whatever its sign. -/
theorem C6_reinvest_stateful_fold (down_payment home_cost interest_rate : ℚ)
    (loan_term_years : ℤ) (home_price_appreciation inflation investment_growth
    closing_costs rent rent_increase : ℚ) (schedule : List AmortizationRow)
    (monthly_payment total_monthly_cost_buying : ℚ) (rows : List SummaryRow)
    (h : calculate_summary_metrics down_payment home_cost interest_rate
      loan_term_years home_price_appreciation inflation investment_growth
      closing_costs rent rent_increase schedule monthly_payment
      total_monthly_cost_buying = some rows) :
    reinvestBalance down_payment home_cost investment_growth inflation
      closing_costs rent rent_increase total_monthly_cost_buying 0 =
      down_payment / 100 * home_cost ∧
    ∀ row ∈ rows, row.investment_value_rent_reinvest =
      pyround (reinvestBalance down_payment home_cost investment_growth inflation
          closing_costs rent rent_increase total_monthly_cost_buying (row.year - 1) *
          (1 + (investment_growth + inflation) / 100) +
        (annualCostBuying home_cost closing_costs total_monthly_cost_buying row.year -
          annualCostRenting rent rent_increase inflation row.year)) := by
  refine ⟨rfl, ?_⟩
  simp only [calculate_summary_metrics] at h
  exact summaryRows_reinvest_field down_payment home_cost home_price_appreciation
    inflation investment_growth closing_costs rent rent_increase
    total_monthly_cost_buying schedule loan_term_years.toNat 1
    (down_payment / 100 * home_cost) rows (le_refl 1) rfl h

lemma rentInvestmentValue_le_succ (down_payment home_cost investment_growth inflation : ℚ)
    (hB : 0 ≤ down_payment / 100 * home_cost)
    (hq : 1 ≤ 1 + (investment_growth + inflation) / 100) (y : ℕ) :
    rentInvestmentValue down_payment home_cost investment_growth inflation y ≤
      rentInvestmentValue down_payment home_cost investment_growth inflation (y + 1) := by
  unfold rentInvestmentValue
  have hpow : (1 + (investment_growth + inflation) / 100) ^ y ≤
      (1 + (investment_growth + inflation) / 100) ^ (y + 1) :=
    pow_le_pow_right₀ hq (by omega)
  exact mul_le_mul_of_nonneg_left hpow hB

lemma rentInvestmentValue_lt_succ (down_payment home_cost investment_growth inflation : ℚ)
    (hB : 0 < down_payment / 100 * home_cost)
    (hq : 1 < 1 + (investment_growth + inflation) / 100) (y : ℕ) :
    rentInvestmentValue down_payment home_cost investment_growth inflation y <
      rentInvestmentValue down_payment home_cost investment_growth inflation (y + 1) := by
  unfold rentInvestmentValue
  have hq0 : (0 : ℚ) < 1 + (investment_growth + inflation) / 100 := by linarith
  have hpow : (0 : ℚ) < (1 + (investment_growth + inflation) / 100) ^ y :=
    pow_pos hq0 y
  rw [pow_succ]
  have key : (0 : ℚ) < down_payment / 100 * home_cost *
      (1 + (investment_growth + inflation) / 100) ^ y := mul_pos hB hpow
  calc down_payment / 100 * home_cost * (1 + (investment_growth + inflation) / 100) ^ y
      = down_payment / 100 * home_cost *
        (1 + (investment_growth + inflation) / 100) ^ y * 1 := by ring
    _ < down_payment / 100 * home_cost *
        (1 + (investment_growth + inflation) / 100) ^ y *
        (1 + (investment_growth + inflation) / 100) :=
        mul_lt_mul_of_pos_left hq key
    _ = down_payment / 100 * home_cost *
        ((1 + (investment_growth + inflation) / 100) ^ y *
          (1 + (investment_growth + inflation) / 100)) := by ring

lemma summaryRows_tivr_chain (down_payment home_cost home_price_appreciation
    inflation investment_growth closing_costs rent rent_increase
    total_monthly_cost_buying : ℚ) (schedule : List AmortizationRow)
    (hB : 0 ≤ down_payment / 100 * home_cost)
    (hq : 1 ≤ 1 + (investment_growth + inflation) / 100) :
    ∀ (c : ℕ) (balance : ℚ) (year : ℕ) (rows : List SummaryRow),
      summaryRows down_payment home_cost home_price_appreciation inflation
        investment_growth closing_costs rent rent_increase total_monthly_cost_buying
        schedule balance year c = some rows →
      List.Chain' (fun a b =>
        a.investment_value_rent ≤ b.investment_value_rent) rows := by
  intro c
  induction c with
  | zero =>
    intro balance year rows h
    rw [← Option.some.inj h]
    exact List.chain'_nil
  | succ c ih =>
    intro balance year rows h
    obtain ⟨equity_percent, rest, hlook, hrest, hrows⟩ :=
      summaryRows_succ_some down_payment home_cost home_price_appreciation inflation
        investment_growth closing_costs rent rent_increase total_monthly_cost_buying
        schedule h
    subst hrows
    cases c with
    | zero =>
      rw [← Option.some.inj hrest]
      exact List.chain'_singleton _
    | succ c' =>
      obtain ⟨ep2, rest2, hlook2, hrest2, hrest_eq⟩ :=
        summaryRows_succ_some down_payment home_cost home_price_appreciation inflation
          investment_growth closing_costs rent rent_increase total_monthly_cost_buying
          schedule hrest
      subst hrest_eq
      refine List.chain'_cons.mpr ⟨?_, ih _ _ _ hrest⟩
      show pyround (rentInvestmentValue down_payment home_cost investment_growth
          inflation year) ≤
        pyround (rentInvestmentValue down_payment home_cost investment_growth
          inflation (year + 1))
      exact pyround_le_pyround
        (rentInvestmentValue_le_succ down_payment home_cost investment_growth
          inflation hB hq year)

lemma summaryRows_zero_eq (down_payment home_cost home_price_appreciation inflation
    investment_growth closing_costs rent rent_increase total_monthly_cost_buying : ℚ)
    (schedule : List AmortizationRow) (balance : ℚ) (year : ℕ) :
    summaryRows down_payment home_cost home_price_appreciation inflation
      investment_growth closing_costs rent rent_increase total_monthly_cost_buying
      schedule balance year 0 = some [] := rfl

/-- Witness for C6 at an all-zero assumption set over one year, with a
one-row schedule carrying 50% equity. -/
theorem C6_reinvest_stateful_fold_witness :
    reinvestBalance 0 0 0 0 0 0 0 0 0 = 0 / 100 * 0 ∧
    ∀ row ∈ [(⟨1, 0, 50, 0, 0, 0, 0, 0, 0⟩ : SummaryRow)],
      row.investment_value_rent_reinvest =
        pyround (reinvestBalance 0 0 0 0 0 0 0 0 (row.year - 1) *
            (1 + (0 + 0) / 100) +
          (annualCostBuying 0 0 0 row.year - annualCostRenting 0 0 0 row.year)) :=
  C6_reinvest_stateful_fold 0 0 0 1 0 0 0 0 0 0 [⟨1, 1, 1, 0, 0, 0, 50⟩] 0 0
    [⟨1, 0, 50, 0, 0, 0, 0, 0, 0⟩] (by
      show summaryRows 0 0 0 0 0 0 0 0 0 [⟨1, 1, 1, 0, 0, 0, 50⟩]
        (0 / 100 * 0) 1 ((1 : ℤ)).toNat = _
      rw [show ((1 : ℤ)).toNat = 0 + 1 from rfl, summaryRows_succ_eq]
      rw [show equityLookup [⟨1, 1, 1, 0, 0, 0, 50⟩] 1 = some 50 from by
        norm_num [equityLookup, List.filter, List.getLast?]]
      rw [Option.some_bind, summaryRows_zero_eq, Option.map_some']
      norm_num [summaryStep, Option.some.injEq, List.cons.injEq,
        SummaryRow.mk.injEq, annualCostBuying, annualCostRenting,
        rentInvestmentValue, pyround, pyround2, Int.fract])

/-- Counterexample to claim C9: with `investment_growth = 5 > 0` and
`inflation = 0`, but a small invested base (1% down on a home cost of 1), the
emitted `investment_value_rent` round to 0 in both year 1 and year 2, so the
field is not strictly increasing in year. -/
theorem C9_counterexample :
    (calculate_summary_metrics 1 1 0 2 0 0 5 0 0 0
      [⟨1, 1, 1, 0, 0, 0, 50⟩, ⟨2, 13, 13, 0, 0, 0, 60⟩] 0 0).map
      (List.map (fun row => row.investment_value_rent)) = some [0, 0] := by
  rw [show calculate_summary_metrics 1 1 0 2 0 0 5 0 0 0
      [⟨1, 1, 1, 0, 0, 0, 50⟩, ⟨2, 13, 13, 0, 0, 0, 60⟩] 0 0 =
      some [⟨1, 0, 50, 1, 0, 0, 0, 0, 0⟩, ⟨2, 0, 60, 1, 1, 0, 0, 0, 0⟩] from by
    show summaryRows 1 1 0 0 5 0 0 0 0
      [⟨1, 1, 1, 0, 0, 0, 50⟩, ⟨2, 13, 13, 0, 0, 0, 60⟩]
      (1 / 100 * 1) 1 ((2 : ℤ)).toNat = _
    rw [show ((2 : ℤ)).toNat = (0 + 1) + 1 from rfl, summaryRows_succ_eq]
    rw [show equityLookup [(⟨1, 1, 1, 0, 0, 0, 50⟩ : AmortizationRow),
        ⟨2, 13, 13, 0, 0, 0, 60⟩] 1 = some 50 from by
      norm_num [equityLookup, List.filter, List.getLast?, List.getLast,
        show ((2 : ℕ) == (1 : ℕ)) = false from rfl,
        show ((1 : ℕ) == (1 : ℕ)) = true from rfl]]
    rw [Option.some_bind, summaryRows_succ_eq]
    rw [show equityLookup [(⟨1, 1, 1, 0, 0, 0, 50⟩ : AmortizationRow),
        ⟨2, 13, 13, 0, 0, 0, 60⟩] 2 = some 60 from by
      norm_num [equityLookup, List.filter, List.getLast?, List.getLast,
        show ((1 : ℕ) == (2 : ℕ)) = false from rfl,
        show ((2 : ℕ) == (2 : ℕ)) = true from rfl]]
    rw [Option.some_bind, summaryRows_zero_eq, Option.map_some', Option.map_some']
    norm_num [summaryStep, Option.some.injEq, List.cons.injEq, SummaryRow.mk.injEq,
      annualCostBuying, annualCostRenting, rentInvestmentValue, pyround, pyround2,
      Int.fract]]
  rfl

/-- Claim C9 amended: with `investment_growth > 0` and `inflation ≥ 0`, the
pre-rounding "Investment: Rent" value is strictly increasing in year whenever
the invested base `down_payment/100 * home_cost` is positive, the emitted
(rounded) field of every produced summary equals the rounded pre-rounding
value, and the emitted field is non-decreasing whenever the base is
non-negative; strict growth of the emitted integer field fails because small
increments vanish under rounding. -/
theorem C9_amended_rent_investment_monotone (down_payment home_cost
    interest_rate : ℚ) (loan_term_years : ℤ) (home_price_appreciation inflation
    investment_growth closing_costs rent rent_increase : ℚ)
    (schedule : List AmortizationRow) (monthly_payment
    total_monthly_cost_buying : ℚ)
    (hg : 0 < investment_growth) (hinfl : 0 ≤ inflation) :
    (0 < down_payment / 100 * home_cost → ∀ y : ℕ,
      rentInvestmentValue down_payment home_cost investment_growth inflation y <
        rentInvestmentValue down_payment home_cost investment_growth inflation (y + 1)) ∧
    ∀ rows, calculate_summary_metrics down_payment home_cost interest_rate
        loan_term_years home_price_appreciation inflation investment_growth
        closing_costs rent rent_increase schedule monthly_payment
        total_monthly_cost_buying = some rows →
      (∀ row ∈ rows, row.investment_value_rent =
        pyround (rentInvestmentValue down_payment home_cost investment_growth
          inflation row.year)) ∧
      (0 ≤ down_payment / 100 * home_cost →
        List.Chain' (fun a b =>
          a.investment_value_rent ≤ b.investment_value_rent) rows) := by
  have hq1 : 1 < 1 + (investment_growth + inflation) / 100 := by linarith
  constructor
  · intro hB y
    exact rentInvestmentValue_lt_succ _ _ _ _ hB hq1 y
  · intro rows h
    simp only [calculate_summary_metrics] at h
    constructor
    · exact summaryRows_tivr_field down_payment home_cost home_price_appreciation
        inflation investment_growth closing_costs rent rent_increase
        total_monthly_cost_buying schedule loan_term_years.toNat _ _ rows h
    · intro hB
      exact summaryRows_tivr_chain down_payment home_cost home_price_appreciation
        inflation investment_growth closing_costs rent rent_increase
        total_monthly_cost_buying schedule hB hq1.le loan_term_years.toNat _ _
        rows h

/-- Witness for the amended C9 at 20% down on a 1000 home, 1% growth. -/
theorem C9_amended_rent_investment_monotone_witness :
    (0 < (20 : ℚ) / 100 * 1000 → ∀ y : ℕ,
      rentInvestmentValue 20 1000 1 0 y < rentInvestmentValue 20 1000 1 0 (y + 1)) ∧
    ∀ rows, calculate_summary_metrics 20 1000 0 1 0 0 1 0 0 0 [] 0 0 = some rows →
      (∀ row ∈ rows, row.investment_value_rent =
        pyround (rentInvestmentValue 20 1000 1 0 row.year)) ∧
      (0 ≤ (20 : ℚ) / 100 * 1000 →
        List.Chain' (fun a b =>
          a.investment_value_rent ≤ b.investment_value_rent) rows) :=
  C9_amended_rent_investment_monotone 20 1000 0 1 0 0 1 0 0 0 [] 0 0
    (by norm_num) (by norm_num)

lemma payment_isSome (loan_amount annual_interest_rate : ℚ) (loan_term_years : ℤ)
    (hr : 0 ≤ annual_interest_rate) (ht : 1 ≤ loan_term_years) :
    ∃ mp, calculate_monthly_mortgage_payment loan_amount annual_interest_rate
      loan_term_years = some mp := by
  have hNcast : (((loan_term_years * 12).toNat : ℤ)) = loan_term_years * 12 :=
    Int.toNat_of_nonneg (by omega)
  have hNpos : 0 < (loan_term_years * 12).toNat := by omega
  by_cases hrz : annual_interest_rate / 100 / 12 = 0
  · have hdv : ((loan_term_years * 12 : ℤ) : ℚ) ≠ 0 := by
      exact_mod_cast (by omega : (loan_term_years * 12 : ℤ) ≠ 0)
    refine ⟨loan_amount / ((loan_term_years * 12 : ℤ) : ℚ), ?_⟩
    simp only [calculate_monthly_mortgage_payment, pydiv, if_pos hrz, if_neg hdv]
  · refine ⟨loan_amount * ((annual_interest_rate / 100 / 12) *
      (1 + annual_interest_rate / 100 / 12) ^ (loan_term_years * 12).toNat) /
      ((1 + annual_interest_rate / 100 / 12) ^ (loan_term_years * 12).toNat - 1), ?_⟩
    simp only [calculate_monthly_mortgage_payment, pydiv, if_neg hrz]
    rw [show (loan_term_years * 12 : ℤ) = (((loan_term_years * 12).toNat : ℕ) : ℤ)
      from hNcast.symm, zpow_natCast]
    have hD : 0 < (1 + annual_interest_rate / 100 / 12) ^
        (loan_term_years * 12).toNat - 1 := by
      have hrpos : 0 < annual_interest_rate / 100 / 12 :=
        lt_of_le_of_ne (by positivity) (Ne.symm hrz)
      have h1 : 1 < (1 + annual_interest_rate / 100 / 12) ^
          (loan_term_years * 12).toNat := one_lt_pow₀ (by linarith) hNpos.ne'
      linarith
    rw [if_neg hD.ne']
    rfl

lemma amortRows_covers_year (r mp thv : ℚ) :
    ∀ (c : ℕ) (balance equity : ℚ) (pn j : ℕ), j < c →
      ∃ row ∈ amortRows r mp thv balance equity pn c,
        row.year = (pn + j - 1) / 12 + 1 := by
  intro c
  induction c with
  | zero =>
    intro balance equity pn j hj
    exact absurd hj (Nat.not_lt_zero j)
  | succ c ih =>
    intro balance equity pn j hj
    cases j with
    | zero =>
      rw [amortRows_succ]
      refine ⟨_, List.mem_cons_self _ _, ?_⟩
      show (pn - 1) / 12 + 1 = (pn + 0 - 1) / 12 + 1
      omega
    | succ j =>
      obtain ⟨row, hmem, hyear⟩ := ih (balance - (mp - balance * r))
        (equity + (mp - balance * r)) (pn + 1) j (by omega)
      rw [amortRows_succ]
      refine ⟨row, List.mem_cons_of_mem _ hmem, ?_⟩
      rw [hyear]
      omega

lemma equityLookup_isSome_of_mem {schedule : List AmortizationRow} {y : ℕ}
    (row : AmortizationRow) (hmem : row ∈ schedule) (hy : row.year = y) :
    (equityLookup schedule y).isSome = true := by
  have hfmem : row ∈ schedule.filter (fun r => r.year == y) :=
    List.mem_filter.mpr ⟨hmem, by simp [hy]⟩
  have hne : schedule.filter (fun r => r.year == y) ≠ [] := by
    intro hnil
    rw [hnil] at hfmem
    exact absurd hfmem (List.not_mem_nil row)
  obtain ⟨last, hlast⟩ := Option.isSome_iff_exists.mp (List.getLast?_isSome.mpr hne)
  unfold equityLookup
  rw [hlast]
  rfl

/-- Claim C1: the scenario summary calculator offers two entry points — the
13-argument `src/utils.py` version that receives the amortization schedule,
and the spec-modelled variant that recomputes the pipeline internally from
the loan parameters — and under either call pattern it yields exactly one
`SummaryRow` per year, with years exactly `1 .. term_years`.  The supplied
schedule must cover every requested year (spec section 4.4's contract), and
the recomputing variant needs well-formed loan parameters so the internal
pipeline succeeds. -/
theorem C1_two_entry_points (down_payment home_cost interest_rate : ℚ)
    (loan_term_years : ℤ) (home_price_appreciation inflation investment_growth
    closing_costs rent rent_increase : ℚ) (schedule : List AmortizationRow)
    (monthly_payment total_monthly_cost_buying : ℚ)
    (ht : 1 ≤ loan_term_years)
    (hlook : ∀ y ∈ yearSeq 1 loan_term_years.toNat,
      (equityLookup schedule y).isSome = true)
    (hhc : 0 < home_cost) (hdp0 : 0 ≤ down_payment) (hdp1 : down_payment < 100)
    (hir : 0 ≤ interest_rate) :
    (∃ rows, calculate_summary_metrics down_payment home_cost interest_rate
        loan_term_years home_price_appreciation inflation investment_growth
        closing_costs rent rent_increase schedule monthly_payment
        total_monthly_cost_buying = some rows ∧
      rows.map (fun row => row.year) = yearSeq 1 loan_term_years.toNat) ∧
    (∃ rows, calculate_summary_metrics_from_inputs down_payment home_cost
        interest_rate loan_term_years home_price_appreciation inflation
        investment_growth closing_costs rent rent_increase = some rows ∧
      rows.map (fun row => row.year) = yearSeq 1 loan_term_years.toNat) := by
  constructor
  · obtain ⟨rows, h1, h2⟩ := summaryRows_total_years down_payment home_cost
      home_price_appreciation inflation investment_growth closing_costs rent
      rent_increase total_monthly_cost_buying schedule loan_term_years.toNat
      (down_payment / 100 * home_cost) 1 hlook
    exact ⟨rows, h1, h2⟩
  · obtain ⟨mp0, hmp0⟩ := payment_isSome (home_cost * (1 - down_payment / 100))
      interest_rate loan_term_years hir ht
    have hden : 0 < 1 - down_payment / 100 := by linarith
    have hL : 0 < home_cost * (1 - down_payment / 100) := mul_pos hhc hden
    have hthv : 0 < home_cost * (1 - down_payment / 100) / (1 - down_payment / 100) :=
      div_pos hL hden
    have hsched : calculate_amortization_schedule
        (home_cost * (1 - down_payment / 100)) interest_rate loan_term_years
        down_payment mp0 =
        some (amortRows (interest_rate / 100 / 12) mp0
          (home_cost * (1 - down_payment / 100) / (1 - down_payment / 100))
          (home_cost * (1 - down_payment / 100))
          (home_cost * (1 - down_payment / 100) / (1 - down_payment / 100) *
            (down_payment / 100)) 1 (loan_term_years * 12).toNat) := by
      simp only [calculate_amortization_schedule]
      rw [if_neg hden.ne', if_neg (fun h => hthv.ne' h.1)]
    have hlook2 : ∀ y ∈ yearSeq 1 loan_term_years.toNat,
        (equityLookup (amortRows (interest_rate / 100 / 12) mp0
          (home_cost * (1 - down_payment / 100) / (1 - down_payment / 100))
          (home_cost * (1 - down_payment / 100))
          (home_cost * (1 - down_payment / 100) / (1 - down_payment / 100) *
            (down_payment / 100)) 1 (loan_term_years * 12).toNat) y).isSome =
        true := by
      intro y hy
      rw [mem_yearSeq] at hy
      have hNcast : (((loan_term_years * 12).toNat : ℤ)) = loan_term_years * 12 :=
        Int.toNat_of_nonneg (by omega)
      have hj : 12 * (y - 1) < (loan_term_years * 12).toNat := by omega
      obtain ⟨row, hmem, hyear⟩ := amortRows_covers_year (interest_rate / 100 / 12)
        mp0 (home_cost * (1 - down_payment / 100) / (1 - down_payment / 100))
        ((loan_term_years * 12).toNat) (home_cost * (1 - down_payment / 100))
        (home_cost * (1 - down_payment / 100) / (1 - down_payment / 100) *
          (down_payment / 100)) 1 (12 * (y - 1)) hj
      refine equityLookup_isSome_of_mem row hmem ?_
      rw [hyear]
      omega
    obtain ⟨rows, h1, h2⟩ := summaryRows_total_years down_payment home_cost
      home_price_appreciation inflation investment_growth closing_costs rent
      rent_increase (calculate_monthly_cost_buying home_cost mp0)
      (amortRows (interest_rate / 100 / 12) mp0
        (home_cost * (1 - down_payment / 100) / (1 - down_payment / 100))
        (home_cost * (1 - down_payment / 100))
        (home_cost * (1 - down_payment / 100) / (1 - down_payment / 100) *
          (down_payment / 100)) 1 (loan_term_years * 12).toNat)
      loan_term_years.toNat (down_payment / 100 * home_cost) 1 hlook2
    refine ⟨rows, ?_, h2⟩
    simp only [calculate_summary_metrics_from_inputs, hmp0, hsched]
    exact h1

/-- Witness for C1 at a 20% down payment on a 1500 home over one year. -/
theorem C1_two_entry_points_witness :
    (∃ rows, calculate_summary_metrics 20 1500 0 1 0 0 0 0 0 0
        [⟨1, 1, 1, 0, 0, 0, 50⟩] 0 0 = some rows ∧
      rows.map (fun row => row.year) = yearSeq 1 ((1 : ℤ)).toNat) ∧
    (∃ rows, calculate_summary_metrics_from_inputs 20 1500 0 1 0 0 0 0 0 0 =
        some rows ∧
      rows.map (fun row => row.year) = yearSeq 1 ((1 : ℤ)).toNat) :=
  C1_two_entry_points 20 1500 0 1 0 0 0 0 0 0 [⟨1, 1, 1, 0, 0, 0, 50⟩] 0 0
    (by norm_num)
    (by
      intro y hy
      have hy1 : y = 1 := by
        rw [mem_yearSeq] at hy
        omega
      subst hy1
      rw [show equityLookup [(⟨1, 1, 1, 0, 0, 0, 50⟩ : AmortizationRow)] 1 =
        some 50 from by norm_num [equityLookup, List.filter, List.getLast?]]
      rfl)
    (by norm_num) (by norm_num) (by norm_num) (by norm_num)
